import Mathlib

/-!
Shallow embedding of the BroAi edge inference gateway core
(src/api/chat.rs, src/llm/mod.rs, src/plugins/mod.rs, src/memory/mod.rs,
src/security/mod.rs, src/errors.rs), together with theorems settling the
frozen claims about it.

Text is modelled as `List Char` (`Str`); Rust `char::is_whitespace`,
`to_lowercase` and friends are modelled by Lean's `Char.isWhitespace` and
`Char.toLower` (faithful on ASCII, which is what the code manipulates).
External collaborators (the llama.cpp model, serde JSON parsing, the OS
filesystem and process API, the Ed25519 scalar multiplication) are
modelled as explicit oracle parameters, so that every theorem quantifies
over their behaviour.
-/

namespace BroAi

/-- Strings as character lists, so that kernel evaluation and structural
recursion are straightforward. -/
abbrev Str := List Char

/-- Rust `str::trim`: strip whitespace from both ends. -/
def trim (s : Str) : Str :=
  ((s.dropWhile Char.isWhitespace).reverse.dropWhile Char.isWhitespace).reverse

/-- Rust `str::to_lowercase`, modelled per-character (ASCII-faithful). -/
def toLowerStr (s : Str) : Str := s.map Char.toLower

/-- Decimal digit list of a natural number (for Rust `format!("{}", n)`). -/
def natRepr (n : Nat) : Str := Nat.toDigits 10 n

/-- Rust integer `Display` for `i64` values. -/
def intRepr : Int → Str
  | .ofNat n => natRepr n
  | .negSucc n => '-' :: natRepr (n + 1)

/-- UTF-8 byte length of a string (Rust `str::len`). -/
def utf8Len (s : Str) : Nat := s.foldl (fun a c => a + c.utf8Size) 0

-- ─── errors.rs ────────────────────────────────────────────────────────────────

/-- `AppError` from src/errors.rs. String payloads carry the formatted
message of the wrapped error. -/
inductive AppError where
  | LlmError (msg : Str)
  | DatabaseError (msg : Str)
  | PluginError (msg : Str)
  | SecurityError (msg : Str)
  | ConfigError (msg : Str)
  | QueueFull
  | Timeout (secs : Nat)
  | Cancelled
  | InvalidRequest (msg : Str)
  | IoError (msg : Str)
  | SerdeError (msg : Str)
deriving DecidableEq

/-- The `Display` strings produced by the `thiserror` attributes in
src/errors.rs. -/
def errorMessage : AppError → Str
  | .LlmError m => ("LLM inference error: ").data ++ m
  | .DatabaseError m => ("Database error: ").data ++ m
  | .PluginError m => ("Plugin error: ").data ++ m
  | .SecurityError m => ("Security error: ").data ++ m
  | .ConfigError m => ("Configuration error: ").data ++ m
  | .QueueFull => ("Queue full - server overloaded").data
  | .Timeout s => ("Inference timeout after ").data ++ natRepr s ++ ("s").data
  | .Cancelled => ("Request cancelled").data
  | .InvalidRequest m => ("Invalid request: ").data ++ m
  | .IoError m => ("IO error: ").data ++ m
  | .SerdeError m => ("Serialization error: ").data ++ m

/-- HTTP status chosen by `AppError::into_response` (src/errors.rs). -/
def into_response_status : AppError → Nat
  | .QueueFull => 429
  | .Timeout _ => 504
  | .InvalidRequest _ => 400
  | .SecurityError _ => 403
  | _ => 500

-- ─── JSON values ──────────────────────────────────────────────────────────────

/-- Minimal model of `serde_json::Value`. Numbers are modelled at integer
precision (no claim depends on floating-point rendering). -/
inductive Json where
  | null
  | bool (b : Bool)
  | num (n : Int)
  | str (s : Str)
  | arr (xs : List Json)
  | obj (fields : List (Str × Json))

/-- Keys of a JSON object (empty for any other value). -/
def Json.keys : Json → List Str
  | .obj fs => fs.map Prod.fst
  | _ => []

/-- `value[key]` on JSON: field lookup, `Null` when absent or when the
value is not an object (serde_json index semantics). -/
def jget (j : Json) (k : Str) : Json :=
  match j with
  | .obj fs =>
    match fs.find? (fun p => p.1 = k) with
    | some p => p.2
    | none => .null
  | _ => .null

/-- `v[k].as_str().unwrap_or(d)`. -/
def jstrOr (j : Json) (k : Str) (d : Str) : Str :=
  match jget j k with
  | .str s => s
  | _ => d

/-- `v[k].as_u64()` (numbers are modelled as integers). -/
def jnatOpt (j : Json) (k : Str) : Option Nat :=
  match jget j k with
  | .num (Int.ofNat n) => some n
  | _ => none

/-- `v[k].as_bool().unwrap_or(false)`. -/
def jboolOr (j : Json) (k : Str) : Bool :=
  match jget j k with
  | .bool b => b
  | _ => false

/-- `v[k].as_f64().unwrap_or(0.0)` at integer precision. -/
def jintOr (j : Json) (k : Str) : Int :=
  match jget j k with
  | .num n => n
  | _ => 0

/-- `v[k].as_array()`. -/
def jarrOpt (j : Json) (k : Str) : Option (List Json) :=
  match jget j k with
  | .arr xs => some xs
  | _ => none

mutual

/-- Compact rendering of a JSON value; models
`serde_json::to_string_pretty` up to whitespace (no claim depends on it). -/
def jsonToStr : Json → Str
  | .null => ("null").data
  | .bool true => ("true").data
  | .bool false => ("false").data
  | .num n => intRepr n
  | .str s => '"' :: s ++ ['"']
  | .arr xs => '[' :: jsonListToStr xs ++ [']']
  | .obj fs => '{' :: jsonFieldsToStr fs ++ ['}']

/-- Comma-separated rendering of array elements. -/
def jsonListToStr : List Json → Str
  | [] => []
  | [x] => jsonToStr x
  | x :: xs => jsonToStr x ++ (',' :: ' ' :: jsonListToStr xs)

/-- Comma-separated rendering of object fields. -/
def jsonFieldsToStr : List (Str × Json) → Str
  | [] => []
  | [(k, v)] => '"' :: k ++ ('"' :: ':' :: ' ' :: jsonToStr v)
  | (k, v) :: fs =>
    '"' :: k ++ ('"' :: ':' :: ' ' :: jsonToStr v) ++ (',' :: ' ' :: jsonFieldsToStr fs)

end

-- ─── src/api/chat.rs: message parsing and prompt building ────────────────────

/-- One entry of the `messages` array of a chat request. -/
structure ChatMessage where
  role : Str
  content : Str
deriving DecidableEq

/-- The chat-completions request body (src/api/chat.rs `ChatRequest`).
`max_tokens`/`temperature` defaults are applied at deserialization and are
not claimed; `temperature : Rat` models the `f32` that the handler merely
passes through. -/
structure ChatRequest where
  model : Str
  messages : List ChatMessage
  max_tokens : Nat
  temperature : Rat
  stream : Bool
  session_id : Option Str
deriving DecidableEq

/-- What follows the first `' '` of `s`, or `""` when `s` contains no
space — the second element of Rust `splitn(2, ' ')` with `unwrap_or("")`. -/
def afterFirstSpace (s : Str) : Str :=
  match s.dropWhile (fun c => c ≠ ' ') with
  | [] => []
  | _ :: t => t

/-- `extract_command` from src/api/chat.rs: if the most recent
user-role message starts (after trim) with `/`, return the lowercased
head before the first space and the trimmed tail. -/
def extract_command (messages : List ChatMessage) : Option (Str × Str) :=
  match messages.reverse.find? (fun m => m.role = ("user").data) with
  | none => none
  | some last =>
    let text := trim last.content
    if text.head? ≠ some '/' then none
    else
      let without_slash := text.drop 1
      let cmd := toLowerStr (without_slash.takeWhile (fun c => c ≠ ' '))
      let args := trim (afterFirstSpace without_slash)
      if cmd = [] then none else some (cmd, args)

/-- `build_prompt` from src/api/chat.rs: flatten the history with role
markers and append the `<|assistant|>` primer. -/
def build_prompt (messages : List ChatMessage) : Str :=
  (messages.foldl
    (fun p m =>
      if m.role = ("system").data then
        p ++ ("<|system|>").data ++ ('\n' :: m.content) ++ ['\n']
      else if m.role = ("user").data then
        p ++ ("<|user|>").data ++ ('\n' :: m.content) ++ ['\n']
      else if m.role = ("assistant").data then
        p ++ ("<|assistant|>").data ++ ('\n' :: m.content) ++ ['\n']
      else
        p ++ m.role ++ (':' :: ' ' :: m.content) ++ ['\n'])
    []) ++ ("<|assistant|>").data ++ ['\n']

/-- `estimate_tokens` from src/api/chat.rs: `(text.len() / 4).max(1)`
over the UTF-8 byte length. -/
def estimate_tokens (text : Str) : Nat := Nat.max (utf8Len text / 4) 1

-- ─── src/llm/mod.rs: word counting and mock inference ────────────────────────

/-- Word-run counter: `cw inWord s` counts the words of `s`, given whether
a word is already in progress. `countWords` below models
`str::split_whitespace().count()`. -/
def cw : Bool → Str → Nat
  | _, [] => 0
  | inw, c :: rest =>
    if c.isWhitespace then cw false rest
    else (if inw then 0 else 1) + cw true rest

/-- `prompt.split_whitespace().count()` from `mock_infer`. -/
def countWords (s : Str) : Nat := cw false s

/-- `mock_infer` from src/llm/mod.rs: deterministic placeholder reply
reporting the whitespace-word count of the whole prompt. -/
def mock_infer (prompt : Str) : Except AppError Str :=
  .ok (("[MOCK] Prompt had ").data ++ natRepr (countWords prompt) ++
    (" words. Set MODEL_PATH to a valid .gguf file for real inference.").data)

-- ─── src/plugins/mod.rs: manifests, registry, runner ─────────────────────────

/-- `PluginManifest` from src/plugins/mod.rs. -/
structure PluginManifest where
  name : Str
  version : Str
  description : Str
  commands : List Str
  default_action : Str
  payload_from_args : Bool
deriving DecidableEq

/-- One entry of the plugin directory as seen by `PluginRegistry::load`.
`parsed` is the combined outcome of `fs::read_to_string` and the serde
manifest parse (both external collaborators): `none` models a read error
or invalid JSON, which the loader warns about and skips. -/
structure DirEnt where
  isJsonExt : Bool
  parsed : Option PluginManifest

/-- The command table: insertion list where the most recent insert is
first, so first-match lookup has exactly `HashMap::insert`/`get`
semantics (later inserts override earlier ones). -/
def lookupCmd : List (Str × PluginManifest) → Str → Option PluginManifest
  | [], _ => none
  | (k, m) :: rest, c => if k = c then some m else lookupCmd rest c

/-- The alias-insertion loop `for cmd in &manifest.commands { entries.insert(...) }`. -/
def insertCmds (acc : List (Str × PluginManifest)) (m : PluginManifest) :
    List (Str × PluginManifest) :=
  m.commands.foldl (fun a c => (toLowerStr c, m) :: a) acc

/-- The directory scan of `PluginRegistry::load`: skip non-`.json`
entries, skip unreadable/invalid manifests, skip manifests whose binary
(`binExists` models `dir.join(&manifest.name).exists()`) is missing, and
register every alias of the rest. -/
def loadAux (binExists : Str → Bool) :
    List DirEnt → List (Str × PluginManifest) → List (Str × PluginManifest)
  | [], acc => acc
  | e :: rest, acc =>
    if ¬ e.isJsonExt then loadAux binExists rest acc
    else
      match e.parsed with
      | none => loadAux binExists rest acc
      | some m =>
        if binExists m.name then loadAux binExists rest (insertCmds acc m)
        else loadAux binExists rest acc

/-- `PluginRegistry` from src/plugins/mod.rs. -/
structure PluginRegistry where
  entries : List (Str × PluginManifest)
  plugin_dir : Str

/-- `PluginRegistry::load`, parameterized by the directory listing and
the binary-existence oracle. -/
def PluginRegistry.load (ents : List DirEnt) (binExists : Str → Bool)
    (dir : Str) : PluginRegistry :=
  ⟨loadAux binExists ents [], dir⟩

/-- `PluginRegistry::resolve`: case-insensitive lookup. -/
def PluginRegistry.resolve (r : PluginRegistry) (command : Str) :
    Option PluginManifest :=
  lookupCmd r.entries (toLowerStr command)

/-- Byte-wise lexicographic comparison of strings (Rust `str` ordering,
ASCII-faithful), used by `sort_by_key`. -/
def strLt : Str → Str → Bool
  | [], [] => false
  | [], _ :: _ => true
  | _ :: _, [] => false
  | a :: as_, b :: bs =>
    if a.toNat < b.toNat then true
    else if b.toNat < a.toNat then false
    else strLt as_ bs

/-- Insertion step of a stable sort by first component. -/
def insertSorted (x : Str × Str) : List (Str × Str) → List (Str × Str)
  | [] => [x]
  | y :: ys => if strLt y.1 x.1 then y :: insertSorted x ys else x :: y :: ys

/-- `PluginRegistry::commands`: `(alias, description)` pairs sorted by
alias. -/
def PluginRegistry.commandList (r : PluginRegistry) : List (Str × Str) :=
  (r.entries.map (fun p => (p.1, p.2.description))).foldr insertSorted []

/-- `PluginRequest` from src/plugins/mod.rs. -/
structure PluginRequest where
  action : Str
  payload : Json

/-- `PluginResponse` from src/plugins/mod.rs. -/
structure PluginResponse where
  success : Bool
  result : Json
  error : Option Str

/-- `PLUGIN_TIMEOUT_SECS` from src/plugins/mod.rs. -/
def PLUGIN_TIMEOUT_SECS : Nat := 10

/-- Outcome of one `child.try_wait()` poll. -/
inductive PollRes where
  | exited
  | running
  | waitErr
deriving DecidableEq

/-- How the poll loop of `PluginRunner::run` ends. -/
inductive LoopExit where
  | exitedOk
  | timedOut
  | waitFailed
deriving DecidableEq

/-- The `loop { try_wait... }` of `PluginRunner::run`: `fuel` is the
number of 50 ms sleeps the 10 s deadline still allows; when a poll sees
the child running with the deadline already passed, the loop kills the
child and reports timeout. -/
def pollLoop (polls : Nat → PollRes) (i : Nat) : Nat → LoopExit
  | 0 =>
    match polls i with
    | .exited => .exitedOk
    | .waitErr => .waitFailed
    | .running => .timedOut
  | fuel + 1 =>
    match polls i with
    | .exited => .exitedOk
    | .waitErr => .waitFailed
    | .running => pollLoop polls (i + 1) fuel

/-- The OS-level behaviour of one spawned child, as `PluginRunner::run`
can observe it: whether the stdin write succeeds, the `try_wait` poll
results, whether `wait_with_output` succeeds, the decoded stdout JSON
(`none` models invalid JSON), and whether the child happens to still be
running at the points where the code returns without killing it. -/
structure ChildWorld where
  stdinWriteOk : Bool
  aliveAtStdinErr : Bool
  polls : Nat → PollRes
  aliveAtWaitErr : Bool
  outputReadOk : Bool
  decoded : Option PluginResponse

/-- What `PluginRunner::run` hands back, together with whether the child
process is still running at that moment. -/
structure RunReturn where
  result : Except AppError PluginResponse
  childRunning : Bool

/-- The portion of `PluginRunner::run` (src/plugins/mod.rs) after the
child has been spawned: write stdin, poll with the 10 s deadline (killing
on expiry), collect and decode stdout. Dropping the `Child` handle in
Rust does not terminate the process, so the stdin-write-error and
`try_wait`-error returns leave the child in whatever state the
environment says. -/
def runAfterSpawn (plugin_name : Str) (w : ChildWorld) (fuel : Nat) : RunReturn :=
  if ¬ w.stdinWriteOk then
    ⟨.error (.PluginError (("STDIN write error").data)), w.aliveAtStdinErr⟩
  else
    match pollLoop w.polls 0 fuel with
    | .timedOut =>
      ⟨.error (.PluginError (("Plugin '").data ++ plugin_name ++
        ("' timed out after ").data ++ natRepr PLUGIN_TIMEOUT_SECS ++ ("s").data)),
       false⟩
    | .waitFailed =>
      ⟨.error (.PluginError (("wait() error").data)), w.aliveAtWaitErr⟩
    | .exitedOk =>
      if ¬ w.outputReadOk then
        ⟨.error (.PluginError (("Output read error").data)), false⟩
      else
        match w.decoded with
        | some r => ⟨.ok r, false⟩
        | none =>
          ⟨.error (.PluginError (("Plugin '").data ++ plugin_name ++
            ("' returned invalid JSON").data)), false⟩

-- ─── src/llm/mod.rs: actor queue, timeout, worker loop ───────────────────────

/-- `QUEUE_CAPACITY` from src/llm/mod.rs. -/
def QUEUE_CAPACITY : Nat := 32

/-- `DEFAULT_INFERENCE_TIMEOUT_SECS` from src/llm/mod.rs. -/
def DEFAULT_INFERENCE_TIMEOUT_SECS : Nat := 300

/-- Rust `u64::from_str`: optional leading `+`, at least one digit, all
digits, overflow (≥ 2^64) is an error. -/
def parseU64 (s : Str) : Option Nat :=
  let body := match s with
    | '+' :: rest => rest
    | _ => s
  if body = [] then none
  else if body.all (fun c => c.isDigit) then
    let v := body.foldl (fun a c => a * 10 + (c.toNat - 48)) 0
    if v < 2 ^ 64 then some v else none
  else none

/-- `inference_timeout_secs` from src/llm/mod.rs: the environment value
when it parses as a positive `u64`, the 300 s default otherwise. -/
def inference_timeout_secs (env : Option Str) : Nat :=
  match env.bind parseU64 with
  | some v => if 0 < v then v else DEFAULT_INFERENCE_TIMEOUT_SECS
  | none => DEFAULT_INFERENCE_TIMEOUT_SECS

/-- An `InferRequest` (src/llm/mod.rs) as the worker sees it.
`receiverAlive` records whether the oneshot receiver still exists when
the worker sends the reply (false once the caller timed out and dropped
its handle). -/
structure InferJob where
  prompt : Str
  max_tokens : Nat
  temperature : Rat
  receiverAlive : Bool

/-- The three terminal states of the worker: mock mode, failed model
load, and real inference (the llama.cpp call abstracted as a function). -/
inductive WorkerMode where
  | mock
  | loadFailed (err : Str)
  | real (inferFn : Str → Nat → Rat → Except AppError Str)

/-- The per-job reply computed by the worker in each mode
(src/llm/mod.rs `worker_loop` match arms). -/
def respond (mode : WorkerMode) (j : InferJob) : Except AppError Str :=
  match mode with
  | .mock => mock_infer j.prompt
  | .loadFailed e => .error (.LlmError (("Model load failed: ").data ++ e))
  | .real f => f j.prompt j.max_tokens j.temperature

/-- One reply sent by the worker: its value and whether it was actually
delivered (a dropped receiver is only logged). -/
structure SentReply where
  value : Except AppError Str
  delivered : Bool

/-- `worker_loop` from src/llm/mod.rs: drain the FIFO channel one job at
a time, answering each exactly once; a failed `send` (receiver dropped)
is logged and the loop moves on. The channel contents are the list of
accepted jobs in enqueue order. -/
def worker_loop (mode : WorkerMode) : List InferJob → List SentReply
  | [] => []
  | j :: rest => ⟨respond mode j, j.receiverAlive⟩ :: worker_loop mode rest

/-- How the caller's `timeout(_, reply_rx).await` in `LlmActor::infer`
resolves: deadline expiry, sender dropped, or a delivered reply. -/
inductive AwaitOutcome where
  | timedOut
  | senderDropped
  | replied (r : Except AppError Str)

/-- `LlmActor::infer` (src/llm/mod.rs): a single non-blocking `try_send`
onto the capacity-32 channel — `QueueFull` when full — then an await on
the reply bounded by `inference_timeout_secs`. `pending` is the list of
jobs already queued at the attempt. -/
def LlmActor.infer (pending : List InferJob) (_job : InferJob)
    (await_ : AwaitOutcome) (envTimeout : Option Str) : Except AppError Str :=
  if pending.length < QUEUE_CAPACITY then
    match await_ with
    | .timedOut => .error (.Timeout (inference_timeout_secs envTimeout))
    | .senderDropped => .error .Cancelled
    | .replied r => r
  else .error .QueueFull

-- ─── src/security/mod.rs: device identity ────────────────────────────────────

/-- `DeviceIdentity` from src/security/mod.rs: the Ed25519 signing key is
its 32-byte seed (ed25519-dalek's `SigningKey::to_bytes` returns exactly
the seed it was built from). -/
structure DeviceIdentity where
  signing_key : List Nat
deriving DecidableEq

/-- One hex digit. -/
def hexDigit (n : Nat) : Char :=
  if n < 10 then Char.ofNat (48 + n) else Char.ofNat (97 + (n - 10))

/-- `hex::encode` over a byte list. -/
def hexEncode (bytes : List Nat) : Str :=
  bytes.foldr (fun b acc => hexDigit (b / 16 % 16) :: hexDigit (b % 16) :: acc) []

/-- `DeviceIdentity::public_key_hex`, parameterized by the Ed25519
public-key derivation `pk` (an external collaborator: deterministic
function of the seed). -/
def public_key_hex (pk : List Nat → List Nat) (id : DeviceIdentity) : Str :=
  hexEncode (pk id.signing_key)

/-- `DeviceIdentity::load_or_generate` (src/security/mod.rs) over an
explicit key-file state: `fs` is the file's byte content (`none` when the
file does not exist) and `rng` the seed `SigningKey::generate` would draw
from the OS RNG (always 32 bytes). Returns the identity together with the
file content after the call. -/
def load_or_generate (fs : Option (List Nat)) (rng : List Nat) :
    Except AppError (DeviceIdentity × List Nat) :=
  match fs with
  | some bytes =>
    if bytes.length = 32 then .ok (⟨bytes⟩, bytes)
    else .error (.SecurityError (("Invalid key file length").data))
  | none => .ok (⟨rng⟩, rng)

-- ─── src/api/chat.rs: result formatter ───────────────────────────────────────

/-- The em-dash placeholder used for missing fields. -/
def emDash : Str := ("—").data

/-- Rust `format!("{:.0}", x)` at the integer precision of our JSON model. -/
def fmtF0 (n : Int) : Str := intRepr n

/-- Rust `format!("{:.1}", x)` at the integer precision of our JSON model. -/
def fmtF1 (n : Int) : Str := intRepr n ++ ('.' :: '0' :: [])

/-- One forecast line of the weather formatter. -/
def forecastLine (d : Json) : Str :=
  ('\n' :: ' ' :: ' ' :: []) ++ jstrOr d (("date").data) [] ++
  (" → max ").data ++ fmtF0 (jintOr d (("max_temp").data)) ++
  ("°C / min ").data ++ fmtF0 (jintOr d (("min_temp").data)) ++
  ("°C / rain ").data ++ fmtF1 (jintOr d (("rain_mm").data)) ++ ("mm").data

/-- `format_result` from src/api/chat.rs: pretty-print the JSON result of
the well-known plugins, generic pretty-print for the rest. -/
def format_result (plugin_name : Str) (result : Json) : Str :=
  if plugin_name = ("plugin-datetime").data then
    ("🕐 **Date & Time**\n📅 Date: ").data ++ jstrOr result (("date").data) emDash ++
    ("\n🕐 Time: ").data ++ jstrOr result (("time").data) emDash ++
    ("\n📆 Day: ").data ++ jstrOr result (("day_of_week").data) emDash ++
    ("\n🌍 Zone: ").data ++ jstrOr result (("timezone").data) emDash
  else if plugin_name = ("plugin-weather").data then
    let base :=
      ("🌍 **Weather — ").data ++ jstrOr result (("location").data) emDash ++
      ("**\n🌤️ ").data ++ jstrOr result (("condition").data) emDash ++
      ("\n🌡️ Temp: ").data ++ jstrOr result (("temperature").data) emDash ++
      ("\n🤔 Feels: ").data ++ jstrOr result (("feels_like").data) emDash ++
      ("\n💧 Humidity: ").data ++ jstrOr result (("humidity").data) emDash ++
      ("\n💨 Wind: ").data ++ jstrOr result (("wind").data) emDash
    match jarrOpt result (("forecast").data) with
    | some days =>
      base ++ ("\n\n📅 **3-Day Forecast**").data ++
        days.foldl (fun acc d => acc ++ forecastLine d) []
    | none => base
  else if plugin_name = ("plugin-calculator").data then
    ("🧮 **Calculator**\n📝 Expression: `").data ++
    jstrOr result (("expression").data) emDash ++
    ("`\n✅ Result: **").data ++ jstrOr result (("result_str").data) emDash ++
    ("**").data
  else if plugin_name = ("plugin-file-reader").data then
    let lines :=
      match jnatOpt result (("lines").data) with
      | some n => n
      | none => (jnatOpt result (("total_lines").data)).getD 0
    ("📄 **File: ").data ++ jstrOr result (("path").data) emDash ++
    ("**\n📏 Lines: ").data ++ natRepr lines ++
    (" | Size: ").data ++
    natRepr ((jnatOpt result (("size_bytes").data)).getD 0) ++
    (" bytes").data ++
    (if jboolOr result (("truncated").data) then (" (truncated)").data else []) ++
    ("\n```\n").data ++
    (match jget result (("content").data) with
     | .str s => s
     | _ => ("(empty)").data) ++
    ("\n```").data
  else
    jsonToStr result

-- ─── src/memory/mod.rs: conversation rows ────────────────────────────────────

/-- One row of the `conversations` table as `save_conversation` inserts
it (src/memory/mod.rs). `created_at` carries the `Utc::now` timestamp. -/
structure ConversationRow where
  session_id : Str
  user_msg : Str
  assistant_msg : Str
  model : Str
  created_at : Int
deriving DecidableEq

-- ─── src/api/chat.rs: the handler ────────────────────────────────────────────

/-- The response body types of src/api/chat.rs. -/
structure Choice where
  index : Nat
  message : ChatMessage
  finish_reason : Str
deriving DecidableEq

/-- `Usage` from src/api/chat.rs. -/
structure Usage where
  prompt_tokens : Nat
  completion_tokens : Nat
  total_tokens : Nat
deriving DecidableEq

/-- `ChatResponse` from src/api/chat.rs. -/
structure ChatResponse where
  id : Str
  object : Str
  created : Int
  model : Str
  choices : List Choice
  usage : Usage
deriving DecidableEq

/-- The collaborators `chat_completions` interacts with: the registry
built at startup, the inference actor (`llm`), the plugin runner
(`runner`, indexed by binary name and request), the two UUIDs minted
during the call, and the wall clock. The conversation store is modelled
as an always-available sink: the rows the handler asks it to insert are
collected in the output. -/
structure HandlerEnv where
  registry : PluginRegistry
  runner : Str → PluginRequest → Except AppError PluginResponse
  llm : Str → Nat → Rat → Except AppError Str
  sessionUuid : Str
  respUuid : Str
  now : Int

/-- Everything observable about one handler call: the HTTP-level result,
the rows inserted into `conversations`, and the plugin invocation (binary
name and `PluginRequest`) if one was made. -/
structure HandlerOut where
  result : Except AppError ChatResponse
  rows : List ConversationRow
  runnerCall : Option (Str × PluginRequest)

/-- `ok_response` from src/api/chat.rs: persist the turn (user message =
content of the **last** message of the list, whatever its role) and build
the OpenAI-shaped 200 response. -/
def ok_response (env : HandlerEnv) (content model session_id : Str)
    (messages : List ChatMessage) (call : Option (Str × PluginRequest)) :
    HandlerOut :=
  let user_msg := (messages.getLast?.map (fun m => m.content)).getD []
  let t := estimate_tokens content
  { result := .ok
      { id := ("chatcmpl-").data ++ env.respUuid
        object := ("chat.completion").data
        created := env.now
        model := model
        choices := [⟨0, ⟨("assistant").data, content⟩, ("stop").data⟩]
        usage := ⟨t, t, t * 2⟩ }
    rows := [⟨session_id, user_msg, content, model, env.now⟩]
    runnerCall := call }

/-- The `/help` reply body built by the handler. -/
def helpContent (r : PluginRegistry) : Str :=
  let lines := (r.commandList).map (fun p =>
    (' ' :: ' ' :: '/' :: []) ++ p.1 ++
    List.replicate (20 - p.1.length) ' ' ++ (' ' :: p.2))
  ("🦀 **Fabio-Claw — Available Commands**\n\n").data ++
  List.intercalate ['\n'] lines ++
  ("\n\nAll other messages are sent to the LLM for inference.").data

/-- `chat_completions` from src/api/chat.rs: validate, mint/reuse the
session id, try command dispatch (built-in `/help`, registry hit with the
broadcast payload, unknown-command notice), otherwise flatten the history
and call the inference actor; persist the outcome and shape the response. -/
def chat_completions (env : HandlerEnv) (req : ChatRequest) : HandlerOut :=
  if req.messages = [] then
    ⟨.error (.InvalidRequest (("messages cannot be empty").data)), [], none⟩
  else if req.stream then
    ⟨.error (.InvalidRequest
      (("Streaming not yet supported. Set stream=false.").data)), [], none⟩
  else
    let session_id := req.session_id.getD env.sessionUuid
    match extract_command req.messages with
    | some (command, args) =>
      if command = ("help").data then
        ok_response env (helpContent env.registry) req.model session_id
          req.messages none
      else
        match env.registry.resolve command with
        | some manifest =>
          let payload :=
            if manifest.payload_from_args ∧ args ≠ [] then
              Json.obj [((("command").data), .str command),
                        ((("args").data), .str args),
                        ((("city").data), .str args),
                        ((("expression").data), .str args),
                        ((("path").data), .str args)]
            else
              Json.obj [((("command").data), .str command)]
          let plugin_req : PluginRequest := ⟨manifest.default_action, payload⟩
          let content :=
            match env.runner manifest.name plugin_req with
            | .ok r =>
              if r.success then format_result manifest.name r.result
              else ("⚠️ Plugin error: ").data ++
                (r.error.getD (("unknown").data))
            | .error e => ("⚠️ Plugin failed: ").data ++ errorMessage e
          ok_response env content req.model session_id req.messages
            (some (manifest.name, plugin_req))
        | none =>
          let content :=
            ("⚠️ Unknown command `/").data ++ command ++
            ("`.\nType `/help` to see all available commands.").data
          ok_response env content req.model session_id req.messages none
    | none =>
      let prompt := build_prompt req.messages
      match env.llm prompt req.max_tokens req.temperature with
      | .error e => ⟨.error e, [], none⟩
      | .ok response_text =>
        let prompt_tokens := estimate_tokens prompt
        let completion_tokens := estimate_tokens response_text
        let user_msg := (req.messages.getLast?.map (fun m => m.content)).getD []
        { result := .ok
            { id := ("chatcmpl-").data ++ env.respUuid
              object := ("chat.completion").data
              created := env.now
              model := req.model
              choices := [⟨0, ⟨("assistant").data, response_text⟩, ("stop").data⟩]
              usage := ⟨prompt_tokens, completion_tokens,
                        prompt_tokens + completion_tokens⟩ }
          rows := [⟨session_id, user_msg, response_text, req.model, env.now⟩]
          runnerCall := none }

/-- The most recent user-role message's content, if any — what the spec
calls "the final user message of the request". -/
def finalUserMessage (messages : List ChatMessage) : Option Str :=
  (messages.reverse.find? (fun m => m.role = ("user").data)).map
    (fun m => m.content)

-- ─── Spec-side definitions and concrete fixtures ─────────────────────────────

/-- Command extraction as the spec words it: a command is returned iff the
most recent user-role message, after trimming, has `/` as its first
character followed by a non-empty head before the first space; the
command is that head lowercased, the argument string is the remainder
after the first space, trimmed. Written from the spec for comparison with
`extract_command`. -/
def extractCommandSpec (messages : List ChatMessage) : Option (Str × Str) :=
  match messages.reverse.find? (fun m => m.role = ("user").data) with
  | none => none
  | some last =>
    let t := trim last.content
    if t.head? = some '/' then
      let rest := t.tail
      let head := rest.takeWhile (fun c => c ≠ ' ')
      if head = [] then none
      else some (toLowerStr head,
        trim ((rest.dropWhile (fun c => c ≠ ' ')).drop 1))
    else none

/-- Whether an `Except` is a success. -/
def isOkB : Except AppError ChatResponse → Bool
  | .ok _ => true
  | .error _ => false

/-- Whether a runner return is a success. -/
def isOkR : Except AppError PluginResponse → Bool
  | .ok _ => true
  | .error _ => false

/-- Handler environment for the persistence counterexample: empty
registry, an inference oracle answering "reply", fixed UUIDs and clock. -/
def cexEnv : HandlerEnv :=
  { registry := ⟨[], []⟩
    runner := fun _ _ => .error (.PluginError [])
    llm := fun _ _ _ => .ok (("reply").data)
    sessionUuid := ("sess").data
    respUuid := ("rid").data
    now := 0 }

/-- A valid request whose **last** list entry is an assistant-role
message, while its most recent **user** message is "hi". -/
def cexReq : ChatRequest :=
  { model := ("m").data
    messages := [⟨("user").data, ("hi").data⟩, ⟨("assistant").data, ("yo").data⟩]
    max_tokens := 512
    temperature := 0
    stream := false
    session_id := none }

/-- A manifest with `payload_from_args = false`, as plugin-datetime ships. -/
def dtManifest : PluginManifest :=
  { name := ("plugin-datetime").data
    version := ("1.0.0").data
    description := ("Date and time").data
    commands := [("time").data]
    default_action := ("get_time").data
    payload_from_args := false }

/-- Handler environment whose registry maps `time` to `dtManifest`. -/
def cex2Env : HandlerEnv :=
  { registry := ⟨[((("time").data), dtManifest)], []⟩
    runner := fun _ _ => .error (.PluginError [])
    llm := fun _ _ _ => .ok []
    sessionUuid := ("sess").data
    respUuid := ("rid").data
    now := 0 }

/-- A request invoking `/time`. -/
def cex2Req : ChatRequest :=
  { model := ("m").data
    messages := [⟨("user").data, ("/time").data⟩]
    max_tokens := 512
    temperature := 0
    stream := false
    session_id := some (("s1").data) }

/-- A manifest with `payload_from_args = true` for the dispatch witness. -/
def calcManifest : PluginManifest :=
  { name := ("plugin-calculator").data
    version := ("1.0.0").data
    description := ("Arithmetic").data
    commands := [("calc").data]
    default_action := ("calculate").data
    payload_from_args := true }

/-- Handler environment whose registry maps `calc` to `calcManifest`. -/
def calcEnv : HandlerEnv :=
  { registry := ⟨[((("calc").data), calcManifest)], []⟩
    runner := fun _ _ => .error (.PluginError [])
    llm := fun _ _ _ => .ok []
    sessionUuid := ("sess").data
    respUuid := ("rid").data
    now := 0 }

/-- A request invoking `/calc 2+2`. -/
def calcReq : ChatRequest :=
  { model := ("m").data
    messages := [⟨("user").data, ("/calc 2+2").data⟩]
    max_tokens := 512
    temperature := 0
    stream := false
    session_id := some (("s1").data) }

/-- A child whose stdin write fails while it keeps running: the runner
returns an error without killing it. -/
def cexWorld : ChildWorld :=
  { stdinWriteOk := false
    aliveAtStdinErr := true
    polls := fun _ => .exited
    aliveAtWaitErr := false
    outputReadOk := true
    decoded := none }

/-- A child that never exits: the poll loop exhausts the deadline. -/
def slowWorld : ChildWorld :=
  { stdinWriteOk := true
    aliveAtStdinErr := false
    polls := fun _ => .running
    aliveAtWaitErr := false
    outputReadOk := true
    decoded := none }

/-- An inference job fixture. -/
def jobFix : InferJob :=
  { prompt := ("hi").data, max_tokens := 16, temperature := 0, receiverAlive := true }

/-- A directory entry carrying a parsed manifest, for the registry witness. -/
def dirEntFix : DirEnt := { isJsonExt := true, parsed := some dtManifest }

-- ─── Helper lemmas ───────────────────────────────────────────────────────────

/-- A successful `lookupCmd` result is a member of the table with the
looked-up key. -/
theorem lookupCmd_mem {l : List (Str × PluginManifest)} {c : Str}
    {m : PluginManifest} (h : lookupCmd l c = some m) : (c, m) ∈ l := by
  induction l with
  | nil => simp [lookupCmd] at h
  | cons p rest ih =>
    rcases p with ⟨k, m0⟩
    by_cases hk : k = c
    · subst hk
      simp [lookupCmd] at h
      subst h
      exact List.mem_cons_self _ _
    · simp [lookupCmd, hk] at h
      exact List.mem_cons_of_mem _ (ih h)

/-- Every pair produced by the alias-insertion fold either carries the
inserted manifest or was already in the accumulator. -/
theorem mem_insertCmds {cs : List Str} {m : PluginManifest}
    {acc : List (Str × PluginManifest)} {p : Str × PluginManifest}
    (h : p ∈ cs.foldl (fun a c => (toLowerStr c, m) :: a) acc) :
    p.2 = m ∨ p ∈ acc := by
  induction cs generalizing acc with
  | nil => exact Or.inr h
  | cons c cs ih =>
    rcases ih h with h1 | h2
    · exact Or.inl h1
    · rcases List.mem_cons.mp h2 with h3 | h4
      · exact Or.inl (by rw [h3])
      · exact Or.inr h4

/-- Every pair produced by the directory scan either has an existing
binary or was already in the accumulator. -/
theorem mem_loadAux {binExists : Str → Bool} {ents : List DirEnt}
    {acc : List (Str × PluginManifest)} {p : Str × PluginManifest}
    (h : p ∈ loadAux binExists ents acc) :
    binExists p.2.name = true ∨ p ∈ acc := by
  induction ents generalizing acc with
  | nil => exact Or.inr h
  | cons e rest ih =>
    unfold loadAux at h
    by_cases hj : e.isJsonExt
    · simp only [hj, not_true_eq_false, if_false] at h
      cases hp : e.parsed with
      | none => rw [hp] at h; exact ih h
      | some m =>
        rw [hp] at h
        by_cases hb : binExists m.name
        · simp only [hb, if_true] at h
          rcases ih h with h1 | h2
          · exact Or.inl h1
          · rcases mem_insertCmds ((insertCmds.eq_1 acc m) ▸ h2) with h3 | h4
            · exact Or.inl (by rw [h3, hb])
            · exact Or.inr h4
        · simp only [hb, if_false] at h
          exact ih h
    · simp only [hj, not_false_eq_true, if_true] at h
      exact ih h

/-- `afterFirstSpace` agrees with dropping one past the first space. -/
theorem afterFirstSpace_eq (s : Str) :
    afterFirstSpace s = (s.dropWhile (fun c => c ≠ ' ')).drop 1 := by
  unfold afterFirstSpace
  cases h : s.dropWhile (fun c => c ≠ ' ') <;> simp

/-- `toLowerStr` preserves emptiness. -/
theorem toLowerStr_eq_nil {s : Str} : toLowerStr s = [] ↔ s = [] := by
  simp [toLowerStr]

/-- Splitting a word count at a whitespace separator. -/
theorem cw_append_ws {w : Char} (hw : w.isWhitespace = true) :
    ∀ (x : Str) (b : Bool) (y : Str), cw b (x ++ w :: y) = cw b x + cw false y := by
  intro x
  induction x with
  | nil => intro b y; simp [cw, hw]
  | cons c cs ih =>
    intro b y
    by_cases hc : c.isWhitespace
    · simp [cw, hc, ih]
    · simp [cw, hc, ih]
      omega

-- ─── Claim theorems ──────────────────────────────────────────────────────────

/-- Claim C4: the worker drains the accepted jobs strictly in enqueue
order (FIFO) and answers each accepted job's reply channel exactly once,
with either a result string or an error: the reply stream has exactly one
entry per job, and the i-th reply is the response to the i-th job. The
single dedicated worker thread of `spawn` is modelled by this sequential
drain of the FIFO channel contents. -/
theorem C4_worker_fifo (mode : WorkerMode) (jobs : List InferJob) :
    (worker_loop mode jobs).length = jobs.length ∧
    (∀ (i : Nat) (j : InferJob), jobs[i]? = some j →
      (worker_loop mode jobs)[i]? =
        some (SentReply.mk (respond mode j) j.receiverAlive)) := by
  constructor
  · induction jobs with
    | nil => rfl
    | cons j rest ih => simp [worker_loop, ih]
  · induction jobs with
    | nil => intro i j h; simp at h
    | cons j0 rest ih =>
      intro i j h
      cases i with
      | zero => simp at h; subst h; simp [worker_loop]
      | succ n =>
        simp only [List.getElem?_cons_succ] at h
        simpa [worker_loop] using ih n j h

/-- Witness for C4 at a concrete queue of two jobs. -/
theorem C4_worker_fifo_witness :
    (worker_loop .mock [jobFix, jobFix]).length = 2 ∧
    (worker_loop .mock [jobFix, jobFix])[0]? =
      some (SentReply.mk (respond .mock jobFix) jobFix.receiverAlive) :=
  ⟨(C4_worker_fifo .mock [jobFix, jobFix]).1,
   (C4_worker_fifo .mock [jobFix, jobFix]).2 0 jobFix rfl⟩

/-- Claim C5: `LlmActor::infer` enqueues with a single non-blocking
`try_send` onto the capacity-32 bounded channel (a total function of the
queue state — it never waits); whenever the channel is full the call
fails immediately with `QueueFull`, which `into_response` renders as
HTTP 429. -/
theorem C5_queue_full (pending : List InferJob) (job : InferJob)
    (await_ : AwaitOutcome) (envTimeout : Option Str)
    (h : pending.length = QUEUE_CAPACITY) :
    LlmActor.infer pending job await_ envTimeout = .error .QueueFull ∧
    into_response_status .QueueFull = 429 ∧ QUEUE_CAPACITY = 32 := by
  refine ⟨?_, rfl, rfl⟩
  unfold LlmActor.infer
  rw [h]
  simp

/-- Witness for C5 at a concretely full queue. -/
theorem C5_queue_full_witness :
    LlmActor.infer (List.replicate 32 jobFix) jobFix .timedOut none =
      .error .QueueFull ∧
    into_response_status .QueueFull = 429 ∧ QUEUE_CAPACITY = 32 :=
  C5_queue_full (List.replicate 32 jobFix) jobFix .timedOut none (by simp [QUEUE_CAPACITY])

/-- Claim C6: after a successful enqueue the caller awaits the reply with
deadline `inference_timeout_secs` — the environment value when it parses
as a positive integer, 300 otherwise; deadline expiry yields the
`Timeout` error, rendered as HTTP 504, while the worker still answers
every accepted job and the reply value is unaffected by the caller's
receiver having been dropped. -/
theorem C6_inference_timeout (pending : List InferJob) (job : InferJob)
    (ev : Option Str) (s : Str) (n : Nat) :
    (pending.length < QUEUE_CAPACITY →
      LlmActor.infer pending job .timedOut ev =
        .error (.Timeout (inference_timeout_secs ev))) ∧
    (parseU64 s = some n → 0 < n → inference_timeout_secs (some s) = n) ∧
    (parseU64 s = none → inference_timeout_secs (some s) = 300) ∧
    (parseU64 s = some 0 → inference_timeout_secs (some s) = 300) ∧
    inference_timeout_secs none = 300 ∧
    into_response_status (.Timeout (inference_timeout_secs ev)) = 504 ∧
    (∀ mode js, (worker_loop mode js).map (fun r => r.value) =
      js.map (respond mode)) := by
  refine ⟨?_, ?_, ?_, ?_, rfl, rfl, ?_⟩
  · intro h
    unfold LlmActor.infer
    simp [h]
  · intro hp hn
    unfold inference_timeout_secs
    simp [hp, hn]
  · intro hp
    unfold inference_timeout_secs
    simp [hp, DEFAULT_INFERENCE_TIMEOUT_SECS]
  · intro hp
    unfold inference_timeout_secs
    simp [hp, DEFAULT_INFERENCE_TIMEOUT_SECS]
  · intro mode js
    induction js with
    | nil => rfl
    | cons j rest ih => simp [worker_loop, ih]

/-- Witness for C6 at an empty queue and the environment value "120". -/
theorem C6_inference_timeout_witness :
    LlmActor.infer [] jobFix .timedOut (some (("120").data)) =
      .error (.Timeout (inference_timeout_secs (some (("120").data)))) ∧
    inference_timeout_secs (some (("120").data)) = 120 ∧
    inference_timeout_secs (some (("nope").data)) = 300 ∧
    inference_timeout_secs (some (("0").data)) = 300 :=
  ⟨(C6_inference_timeout [] jobFix (some (("120").data)) [] 0).1 (by simp [QUEUE_CAPACITY]),
   (C6_inference_timeout [] jobFix none (("120").data) 120).2.1 (by decide) (by decide),
   (C6_inference_timeout [] jobFix none (("nope").data) 0).2.2.1 (by decide),
   (C6_inference_timeout [] jobFix none (("0").data) 0).2.2.2.1 (by decide)⟩

/-- Claim C8: after `PluginRegistry::load` returns, every alias in the
command table maps to a manifest whose declared binary existed in the
plugin directory at load time; a parsed manifest with a missing binary
contributes no aliases (and the registry value is immutable — it is a
pure value whose accessors take it unchanged). -/
theorem C8_registry_binaries (ents : List DirEnt) (binExists : Str → Bool)
    (dir : Str) :
    (∀ al m,
      lookupCmd (PluginRegistry.load ents binExists dir).entries al = some m →
      binExists m.name = true) ∧
    (∀ c m, (PluginRegistry.load ents binExists dir).resolve c = some m →
      binExists m.name = true) := by
  have key : ∀ al m,
      lookupCmd (PluginRegistry.load ents binExists dir).entries al = some m →
      binExists m.name = true := by
    intro al m h
    have hm := lookupCmd_mem h
    rcases mem_loadAux (p := (al, m)) hm with h1 | h2
    · exact h1
    · simp at h2
  exact ⟨key, fun c m h => key (toLowerStr c) m h⟩

/-- Witness for C8 on a one-manifest directory whose binary exists. -/
theorem C8_registry_binaries_witness :
    (fun _ : Str => true) dtManifest.name = true :=
  (C8_registry_binaries [dirEntFix] (fun _ => true) []).2 (("time").data)
    dtManifest rfl

/-- Claim C9: `load_or_generate` is idempotent over a fixed key file:
generating at a path and then loading the same path yields the same
`public_key_hex` — the 32-byte seed round-trips through the file — for
every deterministic public-key derivation; and a key file whose length is
not 32 bytes fails to load with a `Security` error. -/
theorem C9_identity_stable (pk : List Nat → List Nat) (rng rng2 : List Nat)
    (h : rng.length = 32) :
    load_or_generate none rng = .ok (⟨rng⟩, rng) ∧
    load_or_generate (some rng) rng2 = .ok (⟨rng⟩, rng) ∧
    (∀ id1 f1 id2 f2, load_or_generate none rng = .ok (id1, f1) →
      load_or_generate (some f1) rng2 = .ok (id2, f2) →
      public_key_hex pk id2 = public_key_hex pk id1) ∧
    (∀ bytes : List Nat, bytes.length ≠ 32 →
      load_or_generate (some bytes) rng2 =
        .error (.SecurityError (("Invalid key file length").data))) := by
  have hload : load_or_generate (some rng) rng2 = .ok (⟨rng⟩, rng) := by
    show (if rng.length = 32 then
        Except.ok ((⟨rng⟩ : DeviceIdentity), rng)
      else (Except.error (AppError.SecurityError (("Invalid key file length").data)) :
        Except AppError (DeviceIdentity × List Nat))) =
      Except.ok ((⟨rng⟩ : DeviceIdentity), rng)
    rw [if_pos h]
  refine ⟨rfl, hload, ?_, ?_⟩
  · intro id1 f1 id2 f2 h1 h2
    rw [show load_or_generate none rng = .ok (⟨rng⟩, rng) from rfl] at h1
    injection h1 with h1p
    obtain ⟨hi1, hf1⟩ := Prod.mk.inj h1p
    subst hi1
    subst hf1
    rw [hload] at h2
    injection h2 with h2p
    obtain ⟨hi2, hf2⟩ := Prod.mk.inj h2p
    subst hi2
    rfl
  · intro bytes hb
    show (if bytes.length = 32 then
        Except.ok ((⟨bytes⟩ : DeviceIdentity), bytes)
      else (Except.error (AppError.SecurityError (("Invalid key file length").data)) :
        Except AppError (DeviceIdentity × List Nat))) =
      Except.error (AppError.SecurityError (("Invalid key file length").data))
    rw [if_neg hb]

/-- Witness for C9 at a concrete 32-byte seed and a 3-byte bad file. -/
theorem C9_identity_stable_witness :
    load_or_generate (some (List.replicate 32 7)) [0] =
      .ok (⟨List.replicate 32 7⟩, List.replicate 32 7) ∧
    load_or_generate (some [1, 2, 3]) [0] =
      .error (.SecurityError (("Invalid key file length").data)) :=
  ⟨(C9_identity_stable (fun b => b) (List.replicate 32 7) [0] (by simp)).2.1,
   (C9_identity_stable (fun b => b) (List.replicate 32 7) [0] (by simp)).2.2.2
      [1, 2, 3] (by simp)⟩

/-- Claim C7: `extract_command` returns a command exactly as the spec
describes it — iff the most recent user-role message, after trimming,
starts with `/` followed by a non-empty head before the first space; the
command is the lowercased head, the argument string is the trimmed
remainder after the first space, and a lone `/` yields no command.
`extractCommandSpec` is the spec's wording; the two agree on every
message list. -/
theorem C7_extract_command_spec (messages : List ChatMessage) :
    extract_command messages = extractCommandSpec messages := by
  unfold extract_command extractCommandSpec
  cases hfind : messages.reverse.find? (fun m => m.role = ("user").data) with
  | none => rfl
  | some last =>
    dsimp only
    by_cases hc : (trim last.content).head? = some '/'
    · rw [if_neg (by simp [hc]), if_pos hc]
      simp only [List.drop_one, afterFirstSpace_eq]
      by_cases hh : (trim last.content).tail.takeWhile (fun c => c ≠ ' ') = []
      · rw [if_pos (toLowerStr_eq_nil.mpr hh), if_pos hh]
      · rw [if_neg (fun he => hh (toLowerStr_eq_nil.mp he)), if_neg hh]
    · rw [if_pos (by simp [hc]), if_neg hc]

/-- Claim C10: the word count reported by the mock reply is computed by
whitespace-splitting the entire flattened prompt — role markers and the
trailing `<|assistant|>` primer included — not the user's message alone:
a single user message contributes its own words plus the two marker
words, so "hi there" is reported as 4 words, not 2. -/
theorem C10_mock_counts_whole_prompt :
    (∀ c : Str, countWords (build_prompt [⟨("user").data, c⟩]) = countWords c + 2) ∧
    mock_infer (build_prompt [⟨("user").data, ("hi there").data⟩]) =
      .ok (("[MOCK] Prompt had 4 words. Set MODEL_PATH to a valid .gguf file for real inference.").data) ∧
    countWords (("hi there").data) = 2 := by
  refine ⟨?_, by rfl, by decide⟩
  intro c
  have hassoc : build_prompt [⟨("user").data, c⟩] =
      ("<|user|>").data ++ '\n' ::
        (c ++ '\n' :: (("<|assistant|>").data ++ '\n' :: [])) := by
    show ("<|user|>").data ++ ('\n' :: c) ++ ['\n'] ++ ("<|assistant|>").data ++ ['\n'] =
      ("<|user|>").data ++ '\n' ::
        (c ++ '\n' :: (("<|assistant|>").data ++ '\n' :: []))
    simp [List.append_assoc]
  unfold countWords
  rw [hassoc]
  simp only [cw_append_ws (show ('\n').isWhitespace = true by decide)]
  have hA : cw false (("<|user|>").data) = 1 := by decide
  have hB : cw false (("<|assistant|>").data) = 1 := by decide
  have h0 : cw false ([] : Str) = 0 := rfl
  rw [hA, hB, h0]
  omega

/-- Persistence behaviour of `ok_response`: exactly one row, whose fields
mirror the response. -/
theorem ok_response_spec (env : HandlerEnv) (content model session_id : Str)
    (messages : List ChatMessage) (call : Option (Str × PluginRequest)) :
    (∀ resp,
      (ok_response env content model session_id messages call).result = .ok resp →
      ∃ row, (ok_response env content model session_id messages call).rows = [row] ∧
        row.session_id = session_id ∧
        row.model = model ∧
        resp.choices.map (fun ch => ch.message.content) = [row.assistant_msg] ∧
        row.user_msg = (messages.getLast?.map (fun m => m.content)).getD []) ∧
    (∀ e,
      (ok_response env content model session_id messages call).result = .error e →
      (ok_response env content model session_id messages call).rows = []) := by
  constructor
  · intro resp h
    injection h with h2
    subst h2
    exact ⟨_, rfl, rfl, rfl, rfl, rfl⟩
  · intro e h
    exact nomatch h

/-- Claim C1 (amended): every 200 response of `chat_completions` inserts
exactly one `conversations` row, whose `session_id` is the request's (or
the minted uuid when absent), whose `model` is the declared model, whose
`assistant_msg` is the returned assistant content — and whose `user_msg`
is the content of the **last message of the list regardless of role**
(not necessarily the final user-role message); every HTTP-level error
inserts zero rows. -/
theorem C1_persist_amended (env : HandlerEnv) (req : ChatRequest) :
    (∀ resp, (chat_completions env req).result = .ok resp →
      ∃ row, (chat_completions env req).rows = [row] ∧
        row.session_id = req.session_id.getD env.sessionUuid ∧
        row.model = req.model ∧
        resp.choices.map (fun ch => ch.message.content) = [row.assistant_msg] ∧
        row.user_msg = (req.messages.getLast?.map (fun m => m.content)).getD []) ∧
    (∀ e, (chat_completions env req).result = .error e →
      (chat_completions env req).rows = []) := by
  unfold chat_completions
  split
  · exact ⟨(fun resp h => nomatch h), fun e h => rfl⟩
  · split
    · exact ⟨(fun resp h => nomatch h), fun e h => rfl⟩
    · dsimp only
      split
      · split
        · exact ok_response_spec env _ req.model _ req.messages _
        · split
          · exact ok_response_spec env _ req.model _ req.messages _
          · exact ok_response_spec env _ req.model _ req.messages _
      · split
        · exact ⟨(fun resp h => nomatch h), fun e h => rfl⟩
        · refine ⟨fun resp h => ?_, fun e h => nomatch h⟩
          injection h with h2
          subst h2
          exact ⟨_, rfl, rfl, rfl, rfl, rfl⟩

/-- Counterexample to C1 as stated: a valid request whose last list
entry is assistant-role gets a 200 whose single row's `user_msg` is that
assistant content ("yo"), not the final user message ("hi"). -/
theorem C1_persist_counterexample :
    isOkB (chat_completions cexEnv cexReq).result = true ∧
    (chat_completions cexEnv cexReq).rows =
      [⟨("sess").data, ("yo").data, ("reply").data, ("m").data, 0⟩] ∧
    finalUserMessage cexReq.messages = some (("hi").data) ∧
    (("yo").data : Str) ≠ ("hi").data :=
  ⟨rfl, rfl, rfl, by decide⟩

/-- A single-user-message request for the C1 witness. -/
def okReq : ChatRequest :=
  { model := ("m").data
    messages := [⟨("user").data, ("hello").data⟩]
    max_tokens := 512
    temperature := 0
    stream := false
    session_id := some (("s9").data) }

/-- The response `chat_completions cexEnv okReq` produces. -/
def okResp : ChatResponse :=
  { id := ("chatcmpl-rid").data
    object := ("chat.completion").data
    created := 0
    model := ("m").data
    choices := [⟨0, ⟨("assistant").data, ("reply").data⟩, ("stop").data⟩]
    usage := ⟨7, 1, 8⟩ }

/-- A request rejected for `stream = true`, for the C1 witness. -/
def streamReq : ChatRequest :=
  { model := ("m").data
    messages := [⟨("user").data, ("hello").data⟩]
    max_tokens := 512
    temperature := 0
    stream := true
    session_id := none }

/-- Witness for C1 (amended) at a concrete 200 and a concrete 400. -/
theorem C1_persist_amended_witness :
    (∃ row, (chat_completions cexEnv okReq).rows = [row] ∧
      row.session_id = okReq.session_id.getD cexEnv.sessionUuid ∧
      row.model = okReq.model ∧
      okResp.choices.map (fun ch => ch.message.content) = [row.assistant_msg] ∧
      row.user_msg = (okReq.messages.getLast?.map (fun m => m.content)).getD []) ∧
    (chat_completions cexEnv streamReq).rows = [] :=
  ⟨(C1_persist_amended cexEnv okReq).1 okResp rfl,
   (C1_persist_amended cexEnv streamReq).2
     (.InvalidRequest (("Streaming not yet supported. Set stream=false.").data)) rfl⟩

/-- Claim C2 (amended): whenever `chat_completions` dispatches to a
plugin, the request it hands the runner carries the manifest's
`default_action`, and its payload is the five-key object
`command`/`args`/`city`/`expression`/`path` (all four argument keys equal
to the argument string, `command` equal to the lowercased command) when
the manifest sets `payload_from_args` and the argument string is
non-empty — and otherwise the **one-key** object containing only
`command` (not an empty object). -/
theorem C2_dispatch_payload (env : HandlerEnv) (req : ChatRequest)
    (name : Str) (preq : PluginRequest)
    (h : (chat_completions env req).runnerCall = some (name, preq)) :
    ∃ command args manifest,
      extract_command req.messages = some (command, args) ∧
      env.registry.resolve command = some manifest ∧
      name = manifest.name ∧
      preq.action = manifest.default_action ∧
      preq.payload =
        (if manifest.payload_from_args ∧ args ≠ [] then
          Json.obj [((("command").data), .str command),
                    ((("args").data), .str args),
                    ((("city").data), .str args),
                    ((("expression").data), .str args),
                    ((("path").data), .str args)]
        else Json.obj [((("command").data), .str command)]) := by
  unfold chat_completions at h
  split at h
  · exact nomatch h
  · split at h
    · exact nomatch h
    · dsimp only at h
      split at h
      next command args heq1 =>
        split at h
        · exact nomatch h
        · split at h
          next manifest heq2 =>
            injection h with h2
            obtain ⟨hn, hp⟩ := Prod.mk.inj h2
            refine ⟨command, args, manifest, heq1, heq2, hn.symm, ?_, ?_⟩
            · rw [← hp]
            · rw [← hp]
          next heq2 => exact nomatch h
      next heq1 =>
        split at h
        · exact nomatch h
        · exact nomatch h

/-- Counterexample to C2 as stated: with `payload_from_args = false` the
payload handed to the runner is the one-key object containing `command`
— not an empty JSON object. -/
theorem C2_dispatch_payload_counterexample :
    (chat_completions cex2Env cex2Req).runnerCall =
      some ((("plugin-datetime").data),
        ⟨(("get_time").data),
         Json.obj [((("command").data), Json.str (("time").data))]⟩) ∧
    Json.keys (Json.obj [((("command").data), Json.str (("time").data))]) =
      [("command").data] ∧
    Json.keys (Json.obj [((("command").data), Json.str (("time").data))]) ≠
      Json.keys (Json.obj []) :=
  ⟨rfl, rfl, by decide⟩

/-- Witness for C2 (amended) at the `/calc 2+2` dispatch. -/
theorem C2_dispatch_payload_witness :
    ∃ command args manifest,
      extract_command calcReq.messages = some (command, args) ∧
      calcEnv.registry.resolve command = some manifest ∧
      (("plugin-calculator").data : Str) = manifest.name ∧
      (("calculate").data : Str) = manifest.default_action ∧
      Json.obj [((("command").data), .str (("calc").data)),
                ((("args").data), .str (("2+2").data)),
                ((("city").data), .str (("2+2").data)),
                ((("expression").data), .str (("2+2").data)),
                ((("path").data), .str (("2+2").data))] =
        (if manifest.payload_from_args ∧ args ≠ [] then
          Json.obj [((("command").data), .str command),
                    ((("args").data), .str args),
                    ((("city").data), .str args),
                    ((("expression").data), .str args),
                    ((("path").data), .str args)]
        else Json.obj [((("command").data), .str command)]) :=
  C2_dispatch_payload calcEnv calcReq (("plugin-calculator").data)
    ⟨(("calculate").data),
     Json.obj [((("command").data), .str (("calc").data)),
               ((("args").data), .str (("2+2").data)),
               ((("city").data), .str (("2+2").data)),
               ((("expression").data), .str (("2+2").data)),
               ((("path").data), .str (("2+2").data))]⟩ rfl

/-- Claim C3 (amended): in `PluginRunner::run`, after the child has been
spawned, the deadline-expiry path kills the child before returning the
timeout error, and every return reached after the poll loop has observed
the child's exit leaves no running child — but the stdin-write-failure
and `try_wait`-failure error returns do not kill the child, which may
still be running when `run` returns (dropping the `Child` handle does not
terminate the process). -/
theorem C3_runner_child (nm : Str) (w : ChildWorld) (fuel : Nat) :
    ((runAfterSpawn nm w fuel).childRunning = true →
      w.stdinWriteOk = false ∨ pollLoop w.polls 0 fuel = .waitFailed) ∧
    (w.stdinWriteOk = true → pollLoop w.polls 0 fuel = .timedOut →
      runAfterSpawn nm w fuel =
        ⟨.error (.PluginError (("Plugin '").data ++ nm ++
          ("' timed out after ").data ++ natRepr PLUGIN_TIMEOUT_SECS ++ ("s").data)),
         false⟩) := by
  constructor
  · intro h
    by_cases hs : w.stdinWriteOk = true
    · cases hp : pollLoop w.polls 0 fuel with
      | timedOut => simp [runAfterSpawn, hs, hp] at h
      | waitFailed => exact Or.inr rfl
      | exitedOk =>
        simp only [runAfterSpawn, hs] at h
        rw [hp] at h
        by_cases ho : w.outputReadOk = true
        · simp only [ho] at h
          cases hd : w.decoded with
          | none => rw [hd] at h; simp at h
          | some r => rw [hd] at h; simp at h
        · have ho2 : w.outputReadOk = false := by
            revert ho; cases w.outputReadOk <;> simp
          simp [ho2] at h
    · exact Or.inl (by revert hs; cases w.stdinWriteOk <;> simp)
  · intro hs hp
    simp [runAfterSpawn, hs, hp]

/-- Counterexample to C3 as stated: a child whose stdin write fails while
it keeps running is still alive when `run` returns its error — the
stdin-write-failure path neither kills nor reaps it. -/
theorem C3_runner_child_counterexample :
    (runAfterSpawn (("p").data) cexWorld 0).childRunning = true ∧
    isOkR (runAfterSpawn (("p").data) cexWorld 0).result = false :=
  ⟨rfl, rfl⟩

/-- Witness for C3 (amended): the leak characterization at the
stdin-failure child, and the kill-on-timeout equation at a child that
never exits. -/
theorem C3_runner_child_witness :
    (cexWorld.stdinWriteOk = false ∨ pollLoop cexWorld.polls 0 0 = .waitFailed) ∧
    runAfterSpawn (("p").data) slowWorld 0 =
      ⟨.error (.PluginError (("Plugin '").data ++ ("p").data ++
        ("' timed out after ").data ++ natRepr PLUGIN_TIMEOUT_SECS ++ ("s").data)),
       false⟩ :=
  ⟨(C3_runner_child (("p").data) cexWorld 0).1 rfl,
   (C3_runner_child (("p").data) slowWorld 0).2 rfl rfl⟩

end BroAi
